import Mathlib

/-!
Verification of the pydex DEX-file reader core.

Shallow embedding of the Python sources:
  * `src/pydex/util.py`                       (ULEB128 / SLEB128 byte sizes)
  * `src/pydex/exc.py`                        (error taxonomy)
  * `src/pydex/dalvik/models/dalvik.py`       (raw/high-level pool items, MUTF-8 codec, lazy strings)
  * `src/pydex/dalvik/models/encoded_items.py`(encoded-value reader)
  * `src/pydex/dalvik/executable.py`          (header and pool parsers)

Python byte strings are modelled as `List Nat` with every element < 256,
Python unbounded integers as `Nat`/`Int`, exceptions as an explicit error
sum type `PyErr` threaded through `Except`.

The byte-stream collaborator (the external `datastream` library) is not part
of the repository; it is modelled from the specification, section 4.1.
-/

/-- Byte order of a stream, mirroring `datastream.ByteOrder`. -/
inductive ByteOrder where
  | littleEndian
  | bigEndian
deriving DecidableEq, Repr

/-- Python-level errors raised by the core.
`invalidDalvikHeader` mirrors `pydex.exc.InvalidDalvikHeader` (message plus
numeric discriminator code); `valueError` and `indexError` mirror the Python
built-in exceptions the code lets escape; `endOfStream` is the stream's
read-past-end failure (spec section 4.1). -/
inductive PyErr where
  | invalidDalvikHeader (msg : String) (code : Nat)
  | valueError (msg : String)
  | indexError
  | endOfStream
deriving DecidableEq, Repr

namespace PyErr

/-- Whether the error carries a numeric discriminator code; only
`InvalidDalvikHeader` does (`pydex/exc.py`). -/
def hasCode : PyErr → Bool
  | .invalidDalvikHeader _ _ => true
  | _ => false

/-- The numeric discriminator code carried by the error, if any. -/
def code? : PyErr → Option Nat
  | .invalidDalvikHeader _ c => some c
  | _ => none

end PyErr

namespace InvalidDalvikHeader

/-- Code attributes of `pydex.exc.InvalidDalvikHeader`. -/
def INVALID_MAGIC_BYTES : Nat := 0

def INVALID_CHECKSUM : Nat := 1

def INVALID_ENDIAN_TAG : Nat := 2

def INVALID_HEADER_SIZE : Nat := 3

def INVALID_PROTOS_SIZE : Nat := 4

def INVALID_TYPES_SIZE : Nat := 5

def INVALID_DATA_SIZE : Nat := 6

end InvalidDalvikHeader

/-- Python list indexing `l[i]` (for nonnegative `i`): `IndexError` when out
of range. -/
def pyGet {α : Type} (l : List α) (i : Nat) : Except PyErr α :=
  match l.get? i with
  | some a => .ok a
  | none => .error .indexError

/-- Little-endian value of a byte list (least significant byte first). -/
def leVal : List Nat → Nat
  | [] => 0
  | b :: rest => b + 256 * leVal rest

/-- Big-endian value of a byte list (most significant byte first), the
default of Python `int.from_bytes`. -/
def beVal (l : List Nat) : Nat := leVal l.reverse

/-- Integer value of a byte list under a byte order. -/
def intOfBytes (bo : ByteOrder) (l : List Nat) : Nat :=
  match bo with
  | .littleEndian => leVal l
  | .bigEndian => beVal l

/-- ULEB128 decoding of a byte list prefix: returns the decoded value and the
number of bytes consumed, or `endOfStream` when the list ends inside the
encoding.  Modelled from the spec: section 4.1/4.2, `read_uleb128` of the
external `datastream` library (7-bit groups, little-endian, continuation in
the high bit). -/
def ulebDecode : List Nat → Nat → Nat → Except PyErr (Nat × Nat)
  | [], _, _ => .error .endOfStream
  | b :: rest, shift, acc =>
    let acc := acc ||| ((b &&& 0x7F) <<< shift)
    if b &&& 0x80 = 0 then
      .ok (acc, 1)
    else
      match ulebDecode rest (shift + 7) acc with
      | .ok (v, n) => .ok (v, n + 1)
      | .error e => .error e

/-- Adler-32 checksum as `zlib.adler32` computes it.  Modelled from the spec:
section 3/7 (`adler32` of the standard library, an external collaborator):
`a` starts at 1, `b` at 0, both accumulated modulo 65521, result
`b * 65536 + a`. -/
def adler32 (l : List Nat) : Nat :=
  let p := l.foldl (fun (ab : Nat × Nat) x =>
    ((ab.1 + x) % 65521, (ab.2 + ab.1 + x) % 65521)) (1, 0)
  p.2 * 65536 + p.1

/-- One iteration of the `pydex.util.sizeof_uleb128` do-while loop
(`size += 1; value >>= 7; break when value == 0`), written as fuel-indexed
recursion so the definition reduces inside the kernel; the fuel (the
starting value itself) always dominates the number of iterations, so the
fuel-exhausted branch is unreachable. -/
def ulebSizeGo : Nat → Nat → Nat
  | _, 0 => 1
  | value, fuel + 1 => if value >>> 7 = 0 then 1 else 1 + ulebSizeGo (value >>> 7) fuel

/-- `pydex.util.sizeof_uleb128`. -/
def sizeof_uleb128 (value : Nat) : Nat := ulebSizeGo value value

/-- Positive branch loop of `pydex.util.sizeof_sleb128`:
`while value > 0x3F: size += 1; value %= 0x100000000; value >>= 7`,
followed by the final `size += 1`. -/
def slebPosLoop (value : Nat) (size : Nat) : Nat :=
  if 0x3F < value then slebPosLoop ((value % 0x100000000) >>> 7) (size + 1) else size + 1
termination_by value
decreasing_by
  simp only [Nat.shiftRight_eq_div_pow]
  calc value % 0x100000000 / 2 ^ 7 ≤ value / 2 ^ 7 :=
        Nat.div_le_div_right (Nat.mod_le _ _)
    _ < value := Nat.div_lt_self (by omega) (by norm_num)

/-- Negative branch loop of `pydex.util.sizeof_sleb128`:
`while value < -0x40: size += 1; value >>= 7`, followed by the final
`size += 1` (Python `>>` on a negative int is an arithmetic shift, exactly
`Int.shiftRight`). -/
def slebNegLoop (value : Int) (size : Nat) : Nat :=
  if value < -0x40 then slebNegLoop (value >>> 7) (size + 1) else size + 1
termination_by value.natAbs
decreasing_by
  rename_i h
  rcases value with n | n
  · exact absurd h (by simp [Int.not_lt]; omega)
  · have hn : 64 ≤ n := by simp only [Int.negSucc_eq] at h; omega
    show (Int.negSucc n >>> 7).natAbs < (Int.negSucc n).natAbs
    show (Int.negSucc (n >>> 7)).natAbs < (Int.negSucc n).natAbs
    simp only [Int.natAbs_negSucc, Nat.shiftRight_eq_div_pow]
    omega

/-- `pydex.util.sizeof_sleb128`. -/
def sizeof_sleb128 (value : Int) : Nat :=
  if 0 ≤ value then slebPosLoop value.toNat 0 else slebNegLoop value 0

/-- Cursor over an immutable byte slice, mirroring
`datastream.DeserializingStream`.  Modelled from the spec: section 4.1 (the
`datastream` library is an external collaborator). -/
structure DeserializingStream where
  data : List Nat
  pos : Nat
  byteorder : ByteOrder
deriving DecidableEq, Repr

namespace DeserializingStream

/-- Current cursor position. -/
def tell (st : DeserializingStream) : Nat := st.pos

/-- Absolute seek (no bounds check, like a Python BytesIO seek). -/
def seek (st : DeserializingStream) (off : Nat) : DeserializingStream :=
  { st with pos := off }

/-- `read(n)`: the next `n` bytes, failing with `endOfStream` past the end
(spec section 4.1). -/
def read (st : DeserializingStream) (n : Nat) :
    Except PyErr (List Nat × DeserializingStream) :=
  if st.pos + n ≤ st.data.length then
    .ok ((st.data.drop st.pos).take n, { st with pos := st.pos + n })
  else
    .error .endOfStream

/-- `seekpeek(off, n)`: read `n` bytes at an absolute offset without moving
the cursor. -/
def seekpeek (st : DeserializingStream) (off n : Nat) : Except PyErr (List Nat) :=
  if off + n ≤ st.data.length then
    .ok ((st.data.drop off).take n)
  else
    .error .endOfStream

/-- `read_uint8`. -/
def read_uint8 (st : DeserializingStream) : Except PyErr (Nat × DeserializingStream) :=
  match st.read 1 with
  | .ok (l, st') => .ok (intOfBytes st.byteorder l, st')
  | .error e => .error e

/-- `read_uint16` honouring the stream byte order. -/
def read_uint16 (st : DeserializingStream) : Except PyErr (Nat × DeserializingStream) :=
  match st.read 2 with
  | .ok (l, st') => .ok (intOfBytes st.byteorder l, st')
  | .error e => .error e

/-- `read_uint32` honouring the stream byte order. -/
def read_uint32 (st : DeserializingStream) : Except PyErr (Nat × DeserializingStream) :=
  match st.read 4 with
  | .ok (l, st') => .ok (intOfBytes st.byteorder l, st')
  | .error e => .error e

/-- Two's-complement reinterpretation of an `n`-byte unsigned value. -/
def toSigned (bits : Nat) (v : Nat) : Int :=
  if v < 2 ^ (bits - 1) then (v : Int) else (v : Int) - 2 ^ bits

/-- `read_int8`. -/
def read_int8 (st : DeserializingStream) : Except PyErr (Int × DeserializingStream) :=
  match st.read 1 with
  | .ok (l, st') => .ok (toSigned 8 (intOfBytes st.byteorder l), st')
  | .error e => .error e

/-- `read_int16`. -/
def read_int16 (st : DeserializingStream) : Except PyErr (Int × DeserializingStream) :=
  match st.read 2 with
  | .ok (l, st') => .ok (toSigned 16 (intOfBytes st.byteorder l), st')
  | .error e => .error e

/-- `read_int32`. -/
def read_int32 (st : DeserializingStream) : Except PyErr (Int × DeserializingStream) :=
  match st.read 4 with
  | .ok (l, st') => .ok (toSigned 32 (intOfBytes st.byteorder l), st')
  | .error e => .error e

/-- `read_int64`. -/
def read_int64 (st : DeserializingStream) : Except PyErr (Int × DeserializingStream) :=
  match st.read 8 with
  | .ok (l, st') => .ok (toSigned 64 (intOfBytes st.byteorder l), st')
  | .error e => .error e

/-- `read_uleb128`: decode from the current position and advance past the
consumed bytes. -/
def read_uleb128 (st : DeserializingStream) : Except PyErr (Nat × DeserializingStream) :=
  match ulebDecode (st.data.drop st.pos) 0 0 with
  | .ok (v, n) => .ok (v, { st with pos := st.pos + n })
  | .error e => .error e

end DeserializingStream

/-- MUTF-8 decoder, `DalvikStringItem.value` getter
(`src/pydex/dalvik/models/dalvik.py` lines 256-273): the while-loop popping
one lead byte and, for multi-byte leads, one or two following bytes (masked
with `0x3F`, unvalidated), written as recursion on the byte list.  A missing
following byte is the `IndexError` of `bytearray.pop(0)`; an unrecognized
lead raises `ValueError("Invalid MUTF-8 sequence")`.  The source matches on
the lead byte first and only then pops following bytes; here that control
flow is pattern-compiled over the list shape (the branch conditions and
their order are unchanged), and the lemmas `decode_mutf8_ascii`,
`decode_mutf8_two`, `decode_mutf8_three`, `decode_mutf8_invalid` below
restate the source's branch equations verbatim. -/
def decode_mutf8 : List Nat → Except PyErr (List Nat)
  | [] => .ok []
  | [b] =>
    if b &&& 0x80 = 0 then
      (decode_mutf8 []).map (fun s => b :: s)
    else if b &&& 0xE0 = 0xC0 then .error .indexError
    else if b &&& 0xF0 = 0xE0 then .error .indexError
    else .error (.valueError "Invalid MUTF-8 sequence")
  | [b, c] =>
    if b &&& 0x80 = 0 then
      (decode_mutf8 [c]).map (fun s => b :: s)
    else if b &&& 0xE0 = 0xC0 then
      (decode_mutf8 []).map (fun s => (((b &&& 0x1F) <<< 6) ||| (c &&& 0x3F)) :: s)
    else if b &&& 0xF0 = 0xE0 then .error .indexError
    else .error (.valueError "Invalid MUTF-8 sequence")
  | b :: c :: d :: data3 =>
    if b &&& 0x80 = 0 then
      (decode_mutf8 (c :: d :: data3)).map (fun s => b :: s)
    else if b &&& 0xE0 = 0xC0 then
      (decode_mutf8 (d :: data3)).map (fun s => (((b &&& 0x1F) <<< 6) ||| (c &&& 0x3F)) :: s)
    else if b &&& 0xF0 = 0xE0 then
      (decode_mutf8 data3).map
        (fun s => (((b &&& 0x0F) <<< 12) ||| ((c &&& 0x3F) <<< 6) ||| (d &&& 0x3F)) :: s)
    else .error (.valueError "Invalid MUTF-8 sequence")

/-- One iteration of the MUTF-8 encoder loop of the `DalvikStringItem.value`
setter (`dalvik.py` lines 286-301): encode a single code point, raising
`ValueError("Invalid codepoint")` above `0xFFFF`. -/
def encodeChar (cp : Nat) : Except PyErr (List Nat) :=
  if cp ≤ 0x7F then
    .ok [cp]
  else if cp ≤ 0x7FF then
    .ok [0xC0 ||| ((cp >>> 6) &&& 0x1F), 0x80 ||| (cp &&& 0x3F)]
  else if cp ≤ 0xFFFF then
    .ok [0xE0 ||| ((cp >>> 12) &&& 0x0F), 0x80 ||| ((cp >>> 6) &&& 0x3F), 0x80 ||| (cp &&& 0x3F)]
  else
    .error (.valueError "Invalid codepoint")

/-- MUTF-8 encoder, `DalvikStringItem.value` setter (`dalvik.py` lines
286-303): the loop over the string's code points accumulating encoded
bytes. -/
def encode_mutf8 : List Nat → Except PyErr (List Nat)
  | [] => .ok []
  | cp :: rest =>
    match encodeChar cp with
    | .error e => .error e
    | .ok bs =>
      match encode_mutf8 rest with
      | .error e => .error e
      | .ok tail => .ok (bs ++ tail)

/-- Raw `string_id_item` (`dalvik.py` class `DalvikStringID`), with the
universal `offset`/`size`/`data` attributes of `DalvikRawItem` inlined. -/
structure DalvikStringID where
  offset : Nat
  size : Nat
  data : List Nat
  string_data_off : Nat
  id_number : Nat
deriving DecidableEq, Repr

namespace DalvikStringID

/-- `DalvikStringID.struct_size`. -/
def struct_size : Nat := 0x04

end DalvikStringID

/-- Raw `string_data_item` (`dalvik.py` class `DalvikStringData`). -/
structure DalvikStringData where
  offset : Nat
  size : Nat
  data : List Nat
  utf16_size : Nat
  string_data : List Nat
deriving DecidableEq, Repr

/-- High-level string item (`dalvik.py` class `DalvikStringItem`).  The
cached `_value` field only memoizes the getter and is omitted; the getter is
the pure function `decode_mutf8` applied to `raw_item.string_data`. -/
structure DalvikStringItem where
  raw_item : DalvikStringData
  string_id : DalvikStringID
deriving DecidableEq, Repr

namespace DalvikStringItem

/-- The `value` getter of `DalvikStringItem`. -/
def value (s : DalvikStringItem) : Except PyErr (List Nat) :=
  decode_mutf8 s.raw_item.string_data

end DalvikStringItem

/-- Lazy string handle (`dalvik.py` class `LazyDalvikString`). -/
structure LazyDalvikString where
  string_id : DalvikStringID
deriving DecidableEq, Repr

namespace LazyDalvikString

/-- `LazyDalvikString.load` (`dalvik.py` lines 338-367): save the position,
seek to `string_data_off`, read the ULEB128 `utf16_size` and `utf16_size`
raw bytes, take the covered slice with `seekpeek`, restore the position and
build the loaded item. -/
def load (ls : LazyDalvikString) (stream : DeserializingStream) :
    Except PyErr (DalvikStringItem × DeserializingStream) := do
  let pos := stream.tell
  let stream := stream.seek ls.string_id.string_data_off
  let offset := stream.tell
  let (utf16_size, stream) ← stream.read_uleb128
  let (data, stream) ← stream.read utf16_size
  let leb128_size := sizeof_uleb128 utf16_size
  let item_data ← stream.seekpeek ls.string_id.string_data_off (leb128_size + utf16_size)
  let stream := stream.seek pos
  .ok (⟨⟨offset, sizeof_uleb128 utf16_size + data.length, item_data, utf16_size, data⟩,
        ls.string_id⟩, stream)

end LazyDalvikString

/-- Raw `type_id_item` (`dalvik.py` class `DalvikTypeID`). -/
structure DalvikTypeID where
  offset : Nat
  size : Nat
  data : List Nat
  descriptor_idx : Nat
  id_number : Nat
deriving DecidableEq, Repr

namespace DalvikTypeID

/-- `DalvikTypeID.struct_size`. -/
def struct_size : Nat := 0x04

end DalvikTypeID

/-- Raw `type_list` item (`dalvik.py` class `DalvikTypeList`). -/
structure DalvikTypeList where
  offset : Nat
  size : Nat
  data : List Nat
  length : Nat
  entries : List DalvikTypeID
deriving DecidableEq, Repr

/-- Raw `header_item` (`dalvik.py` class `DalvikHeader`). -/
structure DalvikHeader where
  offset : Nat
  size : Nat
  data : List Nat
  magic : List Nat
  checksum : Nat
  signature : List Nat
  file_size : Nat
  header_size : Nat
  endian_tag : Nat
  link_size : Nat
  link_off : Nat
  map_off : Nat
  string_ids_size : Nat
  string_ids_off : Nat
  type_ids_size : Nat
  type_ids_off : Nat
  proto_ids_size : Nat
  proto_ids_off : Nat
  field_ids_size : Nat
  field_ids_off : Nat
  method_ids_size : Nat
  method_ids_off : Nat
  class_defs_size : Nat
  class_defs_off : Nat
  data_size : Nat
  data_off : Nat
deriving DecidableEq, Repr

/-- High-level header (`dalvik.py` class `DalvikHeaderItem`). -/
structure DalvikHeaderItem where
  raw_item : DalvikHeader
  version : Nat
  checksum : Nat
  signature : List Nat
  file_size : Nat
  byte_order : ByteOrder
deriving DecidableEq, Repr

/-- Python `int(...)` on a string of characters (here: the three version
bytes `magic[4:7]`): the value of the decimal digits, or `ValueError` when
the slice is empty or contains a non-digit. -/
def pyIntOfDigits (l : List Nat) : Except PyErr Nat :=
  if l ≠ [] ∧ l.all (fun c => 0x30 ≤ c ∧ c ≤ 0x39) then
    .ok (l.foldl (fun acc c => acc * 10 + (c - 0x30)) 0)
  else
    .error (.valueError "invalid literal for int")

namespace DalvikHeaderItem

/-- `DalvikHeaderItem.from_raw_item` (`dalvik.py` lines 139-163):
`version = int(magic[4:7])`, then the endian branch
(`0x12345678` selects little-endian, `0x78563412` big-endian, anything else
raises `InvalidDalvikHeader(..., INVALID_ENDIAN_TAG)`). -/
def from_raw_item (raw_item : DalvikHeader) : Except PyErr DalvikHeaderItem := do
  let version ← pyIntOfDigits ((raw_item.magic.drop 4).take 3)
  let byte_order ←
    if raw_item.endian_tag = 0x12345678 then
      Except.ok ByteOrder.littleEndian
    else if raw_item.endian_tag = 0x78563412 then
      Except.ok ByteOrder.bigEndian
    else
      Except.error (.invalidDalvikHeader "Invalid endian tag" InvalidDalvikHeader.INVALID_ENDIAN_TAG)
  .ok ⟨raw_item, version, raw_item.checksum, raw_item.signature, raw_item.file_size, byte_order⟩

end DalvikHeaderItem

/-- `DexFile.parse_header` (`executable.py` lines 238-380): sequential reads
on a clone of the stream (here: the stream value itself, cloning is implicit
for an immutable model), with validity checks interleaved exactly as in the
source.  `st0.data` plays the role of `self.data` for the checksum. -/
def parse_header (st0 : DeserializingStream) : Except PyErr DalvikHeaderItem := do
  let (magic, s) ← st0.read 8
  if magic.take 4 ≠ [0x64, 0x65, 0x78, 0x0A] then
    throw (.invalidDalvikHeader "Invalid magic bytes" InvalidDalvikHeader.INVALID_MAGIC_BYTES)
  let m7 ← pyGet magic 7
  if m7 ≠ 0 then
    throw (.invalidDalvikHeader "No terminating NULL character"
      InvalidDalvikHeader.INVALID_MAGIC_BYTES)
  let (checksum, s) ← s.read_uint32
  if checksum ≠ adler32 (st0.data.drop 12) then
    throw (.invalidDalvikHeader "Invalid checksum" InvalidDalvikHeader.INVALID_CHECKSUM)
  let (signature, s) ← s.read 20
  let (file_size, s) ← s.read_uint32
  let (header_size, s) ← s.read_uint32
  if header_size ≠ 0x70 then
    throw (.invalidDalvikHeader "Invalid header size" InvalidDalvikHeader.INVALID_HEADER_SIZE)
  let (endian_tag, s) ← s.read_uint32
  let (link_size, s) ← s.read_uint32
  let (link_off, s) ← s.read_uint32
  let (map_off, s) ← s.read_uint32
  let (string_ids_size, s) ← s.read_uint32
  let (string_ids_off, s) ← s.read_uint32
  let (type_ids_size, s) ← s.read_uint32
  if 0xFFFF ≤ type_ids_size then
    throw (.invalidDalvikHeader "Invalid type ids size" InvalidDalvikHeader.INVALID_TYPES_SIZE)
  let (type_ids_off, s) ← s.read_uint32
  let (proto_ids_size, s) ← s.read_uint32
  if 0xFFFF ≤ proto_ids_size then
    throw (.invalidDalvikHeader "Invalid proto ids size" InvalidDalvikHeader.INVALID_PROTOS_SIZE)
  let (proto_ids_off, s) ← s.read_uint32
  let (field_ids_size, s) ← s.read_uint32
  let (field_ids_off, s) ← s.read_uint32
  let (method_ids_size, s) ← s.read_uint32
  let (method_ids_off, s) ← s.read_uint32
  let (class_defs_size, s) ← s.read_uint32
  let (class_defs_off, s) ← s.read_uint32
  let (data_size, s) ← s.read_uint32
  if data_size % 4 ≠ 0 then
    throw (.invalidDalvikHeader "Invalid data size" InvalidDalvikHeader.INVALID_DATA_SIZE)
  let (data_off, _) ← s.read_uint32
  DalvikHeaderItem.from_raw_item
    ⟨0, header_size, st0.data.take 0x70, magic, checksum, signature, file_size, header_size,
     endian_tag, link_size, link_off, map_off, string_ids_size, string_ids_off,
     type_ids_size, type_ids_off, proto_ids_size, proto_ids_off, field_ids_size,
     field_ids_off, method_ids_size, method_ids_off, class_defs_size, class_defs_off,
     data_size, data_off⟩

/-- `DexFile.parse_dex_prologue` (`executable.py` lines 183-207): seek to 0,
peek the four bytes at offset 40, interpret them with `int.from_bytes`
(big-endian, Python's default), set the stream byte order
(`0x12345678` selects big-endian, `0x78563412` little-endian, anything else
raises `InvalidDalvikHeader(..., INVALID_ENDIAN_TAG)`), then parse the
header. -/
def parse_dex_prologue (data : List Nat) : Except PyErr DalvikHeaderItem := do
  let stream : DeserializingStream := ⟨data, 0, ByteOrder.littleEndian⟩
  let tagBytes ← stream.seekpeek 40 4
  let endian_tag := beVal tagBytes
  let byteorder ←
    if endian_tag = 0x12345678 then
      Except.ok ByteOrder.bigEndian
    else if endian_tag = 0x78563412 then
      Except.ok ByteOrder.littleEndian
    else
      Except.error (.invalidDalvikHeader "Invalid endian tag"
        InvalidDalvikHeader.INVALID_ENDIAN_TAG)
  parse_header { stream with byteorder := byteorder }

/-- The entry-reading loop of `DexFile.parse_protos` (`executable.py` lines
517-518): `length` times, read a uint16 type index and look up
`self.types[idx].raw_item`.  The pool is modelled by the list of its raw
`type_id_item`s (the `.raw_item` projection inlined). -/
def readTypeEntries (types : List DalvikTypeID) :
    Nat → DeserializingStream → Except PyErr (List DalvikTypeID × DeserializingStream)
  | 0, st => .ok ([], st)
  | n + 1, st => do
    let (idx, st) ← st.read_uint16
    let entry ← pyGet types idx
    let (rest, st) ← readTypeEntries types n st
    .ok (entry :: rest, st)

/-- The type-list construction of `DexFile.parse_protos` (`executable.py`
lines 512-531): when `parameters_off != 0`, seek there, read the u32
`length` and `length` uint16 entries, then record
`list_size = len(entries) * DalvikTypeID.struct_size`, `size = list_size + 4`
and the slice `self.data[parameters_off : parameters_off + 4 + list_size]`. -/
def protoTypeList (data : List Nat) (bo : ByteOrder) (types : List DalvikTypeID)
    (parameters_off : Nat) : Except PyErr (Option DalvikTypeList) :=
  if parameters_off ≠ 0 then do
    let st : DeserializingStream := ⟨data, parameters_off, bo⟩
    let (length, st) ← st.read_uint32
    let (entries, _) ← readTypeEntries types length st
    let list_size := entries.length * DalvikTypeID.struct_size
    .ok (some ⟨parameters_off, list_size + 4,
               (data.drop parameters_off).take (4 + list_size), length, entries⟩)
  else
    .ok none

/-- The pool lookups of `DexFile.parse_fields` (`executable.py` lines
592-594): `self.types[class_idx]`, `self.types[type_idx]`,
`self.strings[name_idx]`, each a plain Python list index that raises
`IndexError` when out of range. -/
def resolveFieldRefs {α β : Type} (types : List α) (strings : List β)
    (class_idx type_idx name_idx : Nat) : Except PyErr (α × α × β) := do
  let class_type ← pyGet types class_idx
  let type_type ← pyGet types type_idx
  let name ← pyGet strings name_idx
  .ok (class_type, type_type, name)

/-- Decoded payload of an encoded value.  Python yields heterogeneous values;
floating-point results are represented by the raw bit pattern the stream
read (their IEEE-754 reinterpretation carries no information the claims
need).  `arrayFromStream`/`annotValue` stand for the results of
`DalvikEncodedArray.from_stream`/`DalvikEncodedAnnotation.from_stream`,
classes the repository references but whose sources are absent; modelled
from the spec: sections 4.6 (they capture the bytes remaining after the lead
byte). -/
inductive PyValue where
  | int (i : Int)
  | floatBits (bits : Nat)
  | doubleBits (bits : Nat)
  | bool (b : Bool)
  | none
  | arrayFromStream (rest : List Nat)
  | annotValue (rest : List Nat)
deriving DecidableEq, Repr

/-- The member values of the `DalvikValueFormats` enum
(`encoded_items.py`). -/
def validValueFormats : List Nat :=
  [0x00, 0x02, 0x03, 0x04, 0x06, 0x10, 0x11, 0x15, 0x16, 0x17,
   0x18, 0x19, 0x1A, 0x1B, 0x1C, 0x1D, 0x1E, 0x1F]

/-- `DalvikEncodedValue.decode_value` (`encoded_items.py` lines 184-227):
build a little-endian stream over the item's data, read the lead byte,
`value_format = value_id & 0x1F` (`DalvikValueFormats(...)` raises
`ValueError` for a non-member), and - as in the source, line 190 -
`value_arg = value_format >> 5` (the masked format, not the lead byte),
then dispatch. -/
def decode_value (data : List Nat) : Except PyErr PyValue := do
  let stream : DeserializingStream := ⟨data, 0, ByteOrder.littleEndian⟩
  let (value_id, s) ← stream.read_uint8
  let value_format := value_id &&& 0x1F
  if value_format ∉ validValueFormats then
    throw (.valueError "is not a valid DalvikValueFormats")
  let value_arg := value_format >>> 5
  if value_format = 0x00 then do
    let (v, _) ← s.read_int8
    .ok (.int v)
  else if value_format = 0x02 then do
    let (v, _) ← s.read_int16
    .ok (.int v)
  else if value_format = 0x03 then do
    let (v, _) ← s.read_uint16
    .ok (.int v)
  else if value_format = 0x04 then do
    let (v, _) ← s.read_int32
    .ok (.int v)
  else if value_format = 0x06 then do
    let (v, _) ← s.read_int64
    .ok (.int v)
  else if value_format = 0x10 then do
    let (v, _) ← s.read 4
    .ok (.floatBits (leVal v))
  else if value_format = 0x11 then do
    let (v, _) ← s.read 8
    .ok (.doubleBits (leVal v))
  else if value_format = 0x15 ∨ value_format = 0x16 ∨ value_format = 0x17 ∨
      value_format = 0x18 ∨ value_format = 0x19 ∨ value_format = 0x1A ∨
      value_format = 0x1B then do
    let (v, _) ← s.read_uint32
    .ok (.int v)
  else if value_format = 0x1C then
    .ok (.arrayFromStream (s.data.drop s.pos))
  else if value_format = 0x1D then
    .ok (.annotValue (s.data.drop s.pos))
  else if value_format = 0x1E then
    .ok .none
  else
    .ok (.bool (value_arg != 0))

/-- The u32 value stored at byte offset `off` of `data` under byte order
`bo`; used to state which four bytes a field of the header came from. -/
def readU32At (bo : ByteOrder) (data : List Nat) (off : Nat) : Nat :=
  intOfBytes bo ((data.drop off).take 4)

/-- Canonical MUTF-8 byte sequences for this codec: a sequence of groups,
each either an ASCII byte, a two-byte group `110xxxxx 10yyyyyy` whose code
point needs two bytes (`0x80 ≤ cp`), or a three-byte group
`1110xxxx 10yyyyyy 10zzzzzz` whose code point needs three bytes
(`0x800 ≤ cp`); all bytes below 0x100. -/
inductive MUTF8Canonical : List Nat → Prop
  | nil : MUTF8Canonical []
  | ascii (b : Nat) (rest : List Nat) :
      b < 0x80 → MUTF8Canonical rest → MUTF8Canonical (b :: rest)
  | two (b c : Nat) (rest : List Nat) :
      b < 0x100 → b &&& 0xE0 = 0xC0 →
      c < 0x100 → c &&& 0xC0 = 0x80 →
      0x80 ≤ ((b &&& 0x1F) <<< 6) ||| (c &&& 0x3F) →
      MUTF8Canonical rest → MUTF8Canonical (b :: c :: rest)
  | three (b c d : Nat) (rest : List Nat) :
      b < 0x100 → b &&& 0xF0 = 0xE0 →
      c < 0x100 → c &&& 0xC0 = 0x80 →
      d < 0x100 → d &&& 0xC0 = 0x80 →
      0x800 ≤ ((b &&& 0x0F) <<< 12) ||| ((c &&& 0x3F) <<< 6) ||| (d &&& 0x3F) →
      MUTF8Canonical rest → MUTF8Canonical (b :: c :: d :: rest)

/-- Byte sequences in which every lead byte matches one of the three
patterns the decoder recognizes and every multi-byte lead is followed by
enough bytes; the following bytes are arbitrary (in particular they need not
match `10xxxxxx`). -/
inductive MUTF8LeadsOk : List Nat → Prop
  | nil : MUTF8LeadsOk []
  | ascii (b : Nat) (rest : List Nat) :
      b &&& 0x80 = 0 → MUTF8LeadsOk rest → MUTF8LeadsOk (b :: rest)
  | two (b c : Nat) (rest : List Nat) :
      b &&& 0xE0 = 0xC0 → MUTF8LeadsOk rest → MUTF8LeadsOk (b :: c :: rest)
  | three (b c d : Nat) (rest : List Nat) :
      b &&& 0xF0 = 0xE0 → MUTF8LeadsOk rest → MUTF8LeadsOk (b :: c :: d :: rest)

/-- The code-point sequence the decoder produces when it never validates
continuation bytes: following bytes are consumed masked with `0x3F`
regardless of their high bits.  (Total function; the values on buffers
outside `MUTF8LeadsOk` are irrelevant.) -/
def mutf8Unchecked : List Nat → List Nat
  | [] => []
  | [b] =>
    if b &&& 0x80 = 0 then [b] else []
  | [b, c] =>
    if b &&& 0x80 = 0 then b :: mutf8Unchecked [c]
    else if b &&& 0xE0 = 0xC0 then [((b &&& 0x1F) <<< 6) ||| (c &&& 0x3F)]
    else []
  | b :: c :: d :: data3 =>
    if b &&& 0x80 = 0 then b :: mutf8Unchecked (c :: d :: data3)
    else if b &&& 0xE0 = 0xC0 then
      (((b &&& 0x1F) <<< 6) ||| (c &&& 0x3F)) :: mutf8Unchecked (d :: data3)
    else if b &&& 0xF0 = 0xE0 then
      (((b &&& 0x0F) <<< 12) ||| ((c &&& 0x3F) <<< 6) ||| (d &&& 0x3F)) :: mutf8Unchecked data3
    else []

/-- `k` is a byte count accepting `v` as claimed for the canonical SLEB128
encoding: the claim's property `-2^(7k-1) ≤ v < 2^(7k-1)` together with
`k ≥ 1`. -/
def sleb128SpecFits (v : Int) (k : Nat) : Prop :=
  1 ≤ k ∧ -(2 ^ (7 * k - 1) : Int) ≤ v ∧ v < 2 ^ (7 * k - 1)

/-- A minimal 0x70-byte little-endian DEX header file used as concrete
input: magic `"dex\n035\0"`, correct adler32 checksum, zero signature,
`file_size = header_size = 0x70`, endian bytes `78 56 34 12`, all pool
sizes and offsets zero. -/
def testDex : List Nat :=
  [0x64, 0x65, 0x78, 0x0A, 0x30, 0x33, 0x35, 0x00,
   0xF5, 0x01, 0x50, 0x91] ++
  List.replicate 20 0 ++
  [0x70, 0x00, 0x00, 0x00,
   0x70, 0x00, 0x00, 0x00,
   0x78, 0x56, 0x34, 0x12] ++
  List.replicate 68 0


/-! ## Helper lemmas -/

set_option maxRecDepth 16000

theorem asciiLeadAnd : ∀ b : Nat, b < 0x80 → b &&& 0x80 = 0 := by decide

theorem twoLeadFacts : ∀ b : Nat,
    b < 0x100 → b &&& 0xE0 = 0xC0 →
    b &&& 0x80 ≠ 0 ∧ b &&& 0x1F = b - 0xC0 ∧ 0xC0 ≤ b ∧ b ≤ 0xDF := by decide

theorem contByteFacts : ∀ c : Nat,
    c < 0x100 → c &&& 0xC0 = 0x80 → c &&& 0x3F = c - 0x80 ∧ 0x80 ≤ c ∧ c ≤ 0xBF := by decide

theorem threeLeadFacts : ∀ b : Nat,
    b < 0x100 → b &&& 0xF0 = 0xE0 →
    b &&& 0x80 ≠ 0 ∧ b &&& 0xE0 ≠ 0xC0 ∧ b &&& 0x0F = b - 0xE0 ∧ 0xE0 ≤ b ∧ b ≤ 0xEF := by decide

theorem and80_of_twoLead (b : Nat) (h : b &&& 0xE0 = 0xC0) : b &&& 0x80 = 0x80 := by
  have h1 : (0xE0 &&& 0x80 : Nat) = 0x80 := by decide
  calc b &&& 0x80 = b &&& (0xE0 &&& 0x80) := by rw [h1]
    _ = (b &&& 0xE0) &&& 0x80 := (Nat.and_assoc b 0xE0 0x80).symm
    _ = 0x80 := by rw [h]; decide

theorem and80_of_threeLead (b : Nat) (h : b &&& 0xF0 = 0xE0) : b &&& 0x80 = 0x80 := by
  have h1 : (0xF0 &&& 0x80 : Nat) = 0x80 := by decide
  calc b &&& 0x80 = b &&& (0xF0 &&& 0x80) := by rw [h1]
    _ = (b &&& 0xF0) &&& 0x80 := (Nat.and_assoc b 0xF0 0x80).symm
    _ = 0x80 := by rw [h]; decide

theorem andE0_of_threeLead (b : Nat) (h : b &&& 0xF0 = 0xE0) : b &&& 0xE0 = 0xE0 := by
  have h1 : (0xF0 &&& 0xE0 : Nat) = 0xE0 := by decide
  calc b &&& 0xE0 = b &&& (0xF0 &&& 0xE0) := by rw [h1]
    _ = (b &&& 0xF0) &&& 0xE0 := (Nat.and_assoc b 0xF0 0xE0).symm
    _ = 0xE0 := by rw [h]; decide

theorem or_small (x y k : Nat) (hy : y < 2 ^ k) : (x <<< k) ||| y = x * 2 ^ k + y := by
  rw [Nat.shiftLeft_eq, mul_comm]
  exact (Nat.mul_add_lt_is_or hy x).symm

theorem and63 (x : Nat) : x &&& 0x3F = x % 64 := by
  have h := Nat.and_pow_two_sub_one_eq_mod x 6
  norm_num at h
  exact h

theorem and31 (x : Nat) : x &&& 0x1F = x % 32 := by
  have h := Nat.and_pow_two_sub_one_eq_mod x 5
  norm_num at h
  exact h

theorem and15 (x : Nat) : x &&& 0x0F = x % 16 := by
  have h := Nat.and_pow_two_sub_one_eq_mod x 4
  norm_num at h
  exact h

theorem or192 (x : Nat) (h : x < 64) : 0xC0 ||| x = 0xC0 + x := by
  have h1 := Nat.mul_add_lt_is_or (i := 6) (b := x) (by norm_num [h]) 3
  norm_num at h1
  omega

theorem or128 (x : Nat) (h : x < 64) : 0x80 ||| x = 0x80 + x := by
  have h1 := Nat.mul_add_lt_is_or (i := 6) (b := x) (by norm_num [h]) 2
  norm_num at h1
  omega

theorem or224 (x : Nat) (h : x < 32) : 0xE0 ||| x = 0xE0 + x := by
  have h1 := Nat.mul_add_lt_is_or (i := 5) (b := x) (by norm_num [h]) 7
  norm_num at h1
  omega

/-- Branch equation of the source decoder: an ASCII lead byte emits itself
and the loop continues on the remaining bytes. -/
theorem decode_mutf8_ascii (b : Nat) (rest : List Nat) (h : b &&& 0x80 = 0) :
    decode_mutf8 (b :: rest) = (decode_mutf8 rest).map (fun s => b :: s) := by
  match rest with
  | [] => simp [decode_mutf8, h]
  | [c] => simp [decode_mutf8, h]
  | c :: d :: r => simp [decode_mutf8, h]

/-- Branch equation of the source decoder: a `110xxxxx` lead pops one
following byte, masks it with `0x3F`, and continues. -/
theorem decode_mutf8_two (b c : Nat) (rest : List Nat) (h1 : b &&& 0x80 ≠ 0)
    (h2 : b &&& 0xE0 = 0xC0) :
    decode_mutf8 (b :: c :: rest) =
      (decode_mutf8 rest).map (fun s => (((b &&& 0x1F) <<< 6) ||| (c &&& 0x3F)) :: s) := by
  match rest with
  | [] => simp [decode_mutf8, h1, h2]
  | d :: r => simp [decode_mutf8, h1, h2]

/-- Branch equation of the source decoder: a `1110xxxx` lead pops two
following bytes, masks each with `0x3F`, and continues. -/
theorem decode_mutf8_three (b c d : Nat) (rest : List Nat) (h1 : b &&& 0x80 ≠ 0)
    (h2 : b &&& 0xE0 ≠ 0xC0) (h3 : b &&& 0xF0 = 0xE0) :
    decode_mutf8 (b :: c :: d :: rest) =
      (decode_mutf8 rest).map
        (fun s => (((b &&& 0x0F) <<< 12) ||| ((c &&& 0x3F) <<< 6) ||| (d &&& 0x3F)) :: s) := by
  simp [decode_mutf8, h1, h2, h3]

/-- Branch equation of the source decoder: an unrecognized lead byte raises
`ValueError` regardless of the remaining bytes. -/
theorem decode_mutf8_invalid (b : Nat) (rest : List Nat) (h1 : b &&& 0x80 ≠ 0)
    (h2 : b &&& 0xE0 ≠ 0xC0) (h3 : b &&& 0xF0 ≠ 0xE0) :
    decode_mutf8 (b :: rest) = .error (.valueError "Invalid MUTF-8 sequence") := by
  match rest with
  | [] => simp [decode_mutf8, h1, h2, h3]
  | [c] => simp [decode_mutf8, h1, h2, h3]
  | c :: d :: r => simp [decode_mutf8, h1, h2, h3]

/-! ## Claim C3 (type-list raw size) -/

/-- Claim C3 states the recorded type-list size is `4 + 2 * length`; the
code computes `4 + len(entries) * DalvikTypeID.struct_size` with
`struct_size = 4`.  At a one-entry type list at `parameters_off = 4` in a
ten-byte file, the constructed raw item records `size = 8` and slices eight
bytes, not the `4 + 2 * 1 = 6` bytes the type list occupies on disk. -/
theorem c3_typelist_size_bug :
    protoTypeList [0, 0, 0, 0, 1, 0, 0, 0, 0, 0] ByteOrder.littleEndian
        [⟨0, 4, [0, 0, 0, 0], 0, 0⟩] 4 =
      .ok (some ⟨4, 8, [1, 0, 0, 0, 0, 0], 1, [⟨0, 4, [0, 0, 0, 0], 0, 0⟩]⟩) ∧
    (8 : Nat) ≠ 4 + 2 * 1 := ⟨rfl, by decide⟩

/-! ## Claim C4 (encoded BOOLEAN value) -/

/-- Claim C4 states a `VALUE_BOOLEAN` lead byte `0x3F` decodes to `true`
(its `value_arg`, the high three bits, is 1); the code computes
`value_arg = value_format >> 5` from the masked low five bits, which is
always 0, so both `0x3F` and `0x1F` decode to `false` with no payload
consumed. -/
theorem c4_decode_value_boolean_bug :
    decode_value [0x3F] = .ok (.bool false) ∧
    decode_value [0x1F] = .ok (.bool false) := ⟨rfl, rfl⟩

/-! ## Claim C6 (SLEB128 byte size) -/

/-- Claim C6 states `sizeof_sleb128 v` is the canonical SLEB128 byte count
(the least `k ≥ 1` with `-2^(7k-1) ≤ v < 2^(7k-1)`) for every 64-bit `v`;
at `v = 2^32` the code's `value %= 0x100000000` erases the value on the
first iteration and the function returns 2, but `2^32` does not fit 2
SLEB128 groups (it needs 5). -/
theorem c6_sizeof_sleb128_bug :
    sizeof_sleb128 ((2 : Int) ^ 32) = 2 ∧
    ¬ sleb128SpecFits ((2 : Int) ^ 32) (sizeof_sleb128 ((2 : Int) ^ 32)) ∧
    sleb128SpecFits ((2 : Int) ^ 32) 5 := by
  have h : sizeof_sleb128 ((2 : Int) ^ 32) = 2 := by
    rw [sizeof_sleb128, if_pos (by norm_num)]
    have h0 : ((2 : Int) ^ 32).toNat = 2 ^ 32 := by
      rw [show ((2 : Int) ^ 32) = ((2 ^ 32 : Nat) : Int) by norm_num]
      exact Int.toNat_natCast _
    rw [h0, slebPosLoop, if_pos (by norm_num)]
    have h1 : ((2 ^ 32 % 0x100000000 : Nat) >>> 7) = 0 := by
      norm_num [Nat.shiftRight_eq_div_pow]
    rw [h1, slebPosLoop, if_neg (by norm_num)]
  refine ⟨h, ?_, ?_⟩
  · rw [h]
    rintro ⟨-, -, hlt⟩
    norm_num [sleb128SpecFits] at hlt
  · refine ⟨by norm_num, by norm_num, by norm_num⟩

/-! ## Claim C1 counterexample -/

/-- The byte pair `C2 41` is accepted by the decoder (lead `110xxxxx`
followed by one byte), decodes to the code point `0x81`, but re-encodes to
`C2 81`, not the original bytes: the claimed round trip fails on a buffer
the decoder accepts. -/
theorem c1_counterexample :
    decode_mutf8 [0xC2, 0x41] = .ok [0x81] ∧
    (decode_mutf8 [0xC2, 0x41]).bind encode_mutf8 = .ok [0xC2, 0x81] ∧
    ([0xC2, 0x81] : List Nat) ≠ [0xC2, 0x41] :=
  ⟨rfl, rfl, by decide⟩

/-! ## Claim C2 counterexample -/

/-- Decoding the single byte `0x80` (an unrecognized MUTF-8 lead) fails
with the plain Python `ValueError`, which carries no numeric discriminator
code, contradicting the claim that every parsing failure carries one. -/
theorem c2_counterexample :
    decode_mutf8 [0x80] = .error (.valueError "Invalid MUTF-8 sequence") ∧
    PyErr.hasCode (.valueError "Invalid MUTF-8 sequence") = false ∧
    PyErr.code? (.valueError "Invalid MUTF-8 sequence") = none := ⟨rfl, rfl, rfl⟩

/-! ## Claim C5 (endian mapping) -/

/-- Claim C5 states `from_raw_item` maps `0x12345678` to big-endian; the
code maps it to little-endian (a correctly decoded `ENDIAN_CONSTANT` tag
means the file is little-endian). -/
theorem c5_counterexample :
    (DalvikHeaderItem.from_raw_item
        ⟨0, 0x70, [], [0x64, 0x65, 0x78, 0x0A, 0x30, 0x33, 0x35, 0x00], 0, [], 0x70, 0x70,
         0x12345678, 0, 0, 0, 0, 0, 0, 0, 0, 0, 0, 0, 0, 0, 0, 0, 0, 0⟩).map
        (fun item => item.byte_order) = .ok ByteOrder.littleEndian ∧
    ByteOrder.littleEndian ≠ ByteOrder.bigEndian := ⟨rfl, by decide⟩

/-- Claim C5 amended: `from_raw_item` maps the decoded `endian_tag`
`0x12345678` to little-endian and `0x78563412` to big-endian - the opposite
branch assignment of the prologue, which maps the raw big-endian-peeked tag
`0x12345678` to big-endian and `0x78563412` to little-endian when setting
the stream byte order. -/
theorem c5_endian_mapping :
    (∀ (raw : DalvikHeader) (item : DalvikHeaderItem),
        DalvikHeaderItem.from_raw_item raw = .ok item →
        (raw.endian_tag = 0x12345678 → item.byte_order = ByteOrder.littleEndian) ∧
        (raw.endian_tag = 0x78563412 → item.byte_order = ByteOrder.bigEndian)) ∧
    (∀ data : List Nat, 44 ≤ data.length →
        (readU32At ByteOrder.bigEndian data 40 = 0x12345678 →
          parse_dex_prologue data = parse_header ⟨data, 0, ByteOrder.bigEndian⟩) ∧
        (readU32At ByteOrder.bigEndian data 40 = 0x78563412 →
          parse_dex_prologue data = parse_header ⟨data, 0, ByteOrder.littleEndian⟩)) := by
  constructor
  · intro raw item h
    unfold DalvikHeaderItem.from_raw_item at h
    cases hv : pyIntOfDigits ((raw.magic.drop 4).take 3) with
    | error e =>
      rw [hv] at h
      simp [Bind.bind, Except.bind] at h
    | ok v =>
      rw [hv] at h
      constructor <;> intro ht <;> simp [Bind.bind, Except.bind, ht] at h <;>
        cases h <;> rfl
  · intro data hlen
    have hpeek : DeserializingStream.seekpeek ⟨data, 0, ByteOrder.littleEndian⟩ 40 4 =
        .ok ((data.drop 40).take 4) := by
      simp only [DeserializingStream.seekpeek]
      rw [if_pos (by omega)]
    constructor <;> intro ht <;>
      simp only [readU32At, intOfBytes] at ht <;>
      unfold parse_dex_prologue <;>
      simp only [Bind.bind, Except.bind] <;>
      rw [hpeek] <;>
      simp [ht]

/-- Witness for the amended C5 mapping at concrete inputs: a raw header
carrying tag `0x12345678` and the `testDex` file (whose peeked tag bytes
read `0x78563412` big-endian). -/
theorem c5_endian_mapping_witness :
    (DalvikHeaderItem.mk
        ⟨0, 0x70, [], [0x64, 0x65, 0x78, 0x0A, 0x30, 0x33, 0x35, 0x00], 0, [], 0x70, 0x70,
         0x12345678, 0, 0, 0, 0, 0, 0, 0, 0, 0, 0, 0, 0, 0, 0, 0, 0, 0⟩
        35 0 [] 0x70 ByteOrder.littleEndian).byte_order = ByteOrder.littleEndian ∧
    parse_dex_prologue testDex = parse_header ⟨testDex, 0, ByteOrder.littleEndian⟩ :=
  ⟨(c5_endian_mapping.1
      ⟨0, 0x70, [], [0x64, 0x65, 0x78, 0x0A, 0x30, 0x33, 0x35, 0x00], 0, [], 0x70, 0x70,
       0x12345678, 0, 0, 0, 0, 0, 0, 0, 0, 0, 0, 0, 0, 0, 0, 0, 0, 0⟩
      (DalvikHeaderItem.mk
        ⟨0, 0x70, [], [0x64, 0x65, 0x78, 0x0A, 0x30, 0x33, 0x35, 0x00], 0, [], 0x70, 0x70,
         0x12345678, 0, 0, 0, 0, 0, 0, 0, 0, 0, 0, 0, 0, 0, 0, 0, 0, 0⟩
        35 0 [] 0x70 ByteOrder.littleEndian) rfl).1 rfl,
   (c5_endian_mapping.2 testDex (by decide)).2 (by decide)⟩

/-! ## Claim C2 (error code partition) -/

/-- Claim C2 amended: header-parsing failures raise `InvalidDalvikHeader`,
which carries a numeric discriminator code and a message; but an
unrecognized MUTF-8 lead byte raises the plain built-in `ValueError`, and an
out-of-range pool cross-reference raises the plain built-in `IndexError`,
neither of which carries a numeric code. -/
theorem c2_error_code_partition :
    (∀ (msg : String) (code : Nat),
        PyErr.hasCode (.invalidDalvikHeader msg code) = true ∧
        PyErr.code? (.invalidDalvikHeader msg code) = some code) ∧
    (∀ (b : Nat) (rest : List Nat),
        b &&& 0x80 ≠ 0 → b &&& 0xE0 ≠ 0xC0 → b &&& 0xF0 ≠ 0xE0 →
        decode_mutf8 (b :: rest) = .error (.valueError "Invalid MUTF-8 sequence") ∧
        PyErr.hasCode (.valueError "Invalid MUTF-8 sequence") = false) ∧
    (∀ (α β : Type) (types : List α) (strings : List β) (ci ti ni : Nat),
        types.length ≤ ci →
        resolveFieldRefs types strings ci ti ni = .error .indexError ∧
        PyErr.hasCode .indexError = false) := by
  refine ⟨fun msg code => ⟨rfl, rfl⟩, ?_, ?_⟩
  · intro b rest h1 h2 h3
    exact ⟨decode_mutf8_invalid b rest h1 h2 h3, rfl⟩
  · intro α β types strings ci ti ni hci
    refine ⟨?_, rfl⟩
    unfold resolveFieldRefs
    have hg : pyGet types ci = .error .indexError := by
      unfold pyGet
      rw [List.get?_eq_none.mpr hci]
    rw [hg]
    rfl

/-- Witness for the amended C2 at concrete inputs: the checksum error, the
unrecognized lead byte `0xF4`, and an index into an empty types pool. -/
theorem c2_error_code_partition_witness :
    (PyErr.hasCode (.invalidDalvikHeader "Invalid checksum" 1) = true ∧
     PyErr.code? (.invalidDalvikHeader "Invalid checksum" 1) = some 1) ∧
    (decode_mutf8 [0xF4] = .error (.valueError "Invalid MUTF-8 sequence") ∧
     PyErr.hasCode (.valueError "Invalid MUTF-8 sequence") = false) ∧
    (resolveFieldRefs ([] : List Nat) ([] : List Nat) 0 0 0 = .error .indexError ∧
     PyErr.hasCode .indexError = false) :=
  ⟨c2_error_code_partition.1 "Invalid checksum" 1,
   c2_error_code_partition.2.1 0xF4 [] (by decide) (by decide) (by decide),
   c2_error_code_partition.2.2 Nat Nat [] [] 0 0 0 (by decide)⟩

/-! ## Claim C10 (no continuation-byte validation) -/

theorem mutf8Unchecked_ascii (b : Nat) (rest : List Nat) (h : b &&& 0x80 = 0) :
    mutf8Unchecked (b :: rest) = b :: mutf8Unchecked rest := by
  match rest with
  | [] => simp [mutf8Unchecked, h]
  | [c] => simp [mutf8Unchecked, h]
  | c :: d :: r => simp [mutf8Unchecked, h]

theorem mutf8Unchecked_two (b c : Nat) (rest : List Nat) (h1 : b &&& 0x80 ≠ 0)
    (h2 : b &&& 0xE0 = 0xC0) :
    mutf8Unchecked (b :: c :: rest) =
      (((b &&& 0x1F) <<< 6) ||| (c &&& 0x3F)) :: mutf8Unchecked rest := by
  match rest with
  | [] => simp [mutf8Unchecked, h1, h2]
  | d :: r => simp [mutf8Unchecked, h1, h2]

theorem mutf8Unchecked_three (b c d : Nat) (rest : List Nat) (h1 : b &&& 0x80 ≠ 0)
    (h2 : b &&& 0xE0 ≠ 0xC0) (h3 : b &&& 0xF0 = 0xE0) :
    mutf8Unchecked (b :: c :: d :: rest) =
      (((b &&& 0x0F) <<< 12) ||| ((c &&& 0x3F) <<< 6) ||| (d &&& 0x3F)) :: mutf8Unchecked rest := by
  simp [mutf8Unchecked, h1, h2, h3]

/-- Claim C10: on every buffer whose lead bytes are recognized and have
enough following bytes, the decoder succeeds - the following bytes are
consumed masked with `0x3F`, never validated against `10xxxxxx`. -/
theorem c10_no_continuation_validation :
    ∀ bs : List Nat, MUTF8LeadsOk bs → decode_mutf8 bs = .ok (mutf8Unchecked bs) := by
  intro bs h
  induction h with
  | nil => rfl
  | ascii b rest hb _ ih =>
    rw [decode_mutf8_ascii b rest hb, ih, mutf8Unchecked_ascii b rest hb]
    rfl
  | two b c rest hb _ ih =>
    have h1 : b &&& 0x80 ≠ 0 := by rw [and80_of_twoLead b hb]; decide
    rw [decode_mutf8_two b c rest h1 hb, ih, mutf8Unchecked_two b c rest h1 hb]
    rfl
  | three b c d rest hb _ ih =>
    have h1 : b &&& 0x80 ≠ 0 := by rw [and80_of_threeLead b hb]; decide
    have h2 : b &&& 0xE0 ≠ 0xC0 := by rw [andE0_of_threeLead b hb]; decide
    rw [decode_mutf8_three b c d rest h1 h2 hb, ih, mutf8Unchecked_three b c d rest h1 h2 hb]
    rfl

/-- Witness for C10 at the concrete buffer `C2 41`, whose second byte does
not match `10xxxxxx` yet decodes without error. -/
theorem c10_no_continuation_validation_witness :
    MUTF8LeadsOk [0xC2, 0x41] ∧
    decode_mutf8 [0xC2, 0x41] = .ok (mutf8Unchecked [0xC2, 0x41]) :=
  have h : MUTF8LeadsOk [0xC2, 0x41] := MUTF8LeadsOk.two 0xC2 0x41 [] (by decide) MUTF8LeadsOk.nil
  ⟨h, c10_no_continuation_validation [0xC2, 0x41] h⟩

/-! ## Claim C1 (round trip on canonical sequences) -/

theorem encodeChar_two (x y : Nat) (hx : x < 32) (hy : y < 64) (h : 0x80 ≤ x * 64 + y) :
    encodeChar (x * 64 + y) = .ok [0xC0 + x, 0x80 + y] := by
  have h1 : (x * 64 + y) >>> 6 = x := by
    simp only [Nat.shiftRight_eq_div_pow]
    norm_num
    omega
  have h2 : x &&& 0x1F = x := by rw [and31]; omega
  have h3 : (x * 64 + y) &&& 0x3F = y := by rw [and63]; omega
  unfold encodeChar
  rw [if_neg (by omega), if_pos (by omega), h1, h2, h3, or192 x (by omega), or128 y (by omega)]

theorem encodeChar_three (x y z : Nat) (hx : x < 16) (hy : y < 64) (hz : z < 64)
    (h : 0x800 ≤ x * 4096 + y * 64 + z) :
    encodeChar (x * 4096 + y * 64 + z) = .ok [0xE0 + x, 0x80 + y, 0x80 + z] := by
  have h1 : (x * 4096 + y * 64 + z) >>> 12 = x := by
    simp only [Nat.shiftRight_eq_div_pow]
    norm_num
    omega
  have h2 : x &&& 0x0F = x := by rw [and15]; omega
  have h3 : (x * 4096 + y * 64 + z) >>> 6 = x * 64 + y := by
    simp only [Nat.shiftRight_eq_div_pow]
    norm_num
    omega
  have h4 : (x * 64 + y) &&& 0x3F = y := by rw [and63]; omega
  have h5 : (x * 4096 + y * 64 + z) &&& 0x3F = z := by rw [and63]; omega
  unfold encodeChar
  rw [if_neg (by omega), if_neg (by omega), if_pos (by omega), h1, h2, h3, h4, h5,
    or224 x (by omega), or128 y (by omega), or128 z (by omega)]

/-- Arithmetic value of a decoded two-byte group. -/
theorem twoByteVal (b c : Nat) (hb : b < 0x100) (hbm : b &&& 0xE0 = 0xC0)
    (hc : c < 0x100) (hcm : c &&& 0xC0 = 0x80) :
    ((b &&& 0x1F) <<< 6) ||| (c &&& 0x3F) = (b - 0xC0) * 64 + (c - 0x80) := by
  obtain ⟨-, hx, -, -⟩ := twoLeadFacts b hb hbm
  obtain ⟨hy, -, hcu⟩ := contByteFacts c hc hcm
  rw [hx, hy, or_small _ _ 6 (by omega)]
  norm_num

/-- Arithmetic value of a decoded three-byte group. -/
theorem threeByteVal (b c d : Nat) (hb : b < 0x100) (hbm : b &&& 0xF0 = 0xE0)
    (hc : c < 0x100) (hcm : c &&& 0xC0 = 0x80)
    (hd : d < 0x100) (hdm : d &&& 0xC0 = 0x80) :
    ((b &&& 0x0F) <<< 12) ||| ((c &&& 0x3F) <<< 6) ||| (d &&& 0x3F) =
      (b - 0xE0) * 4096 + (c - 0x80) * 64 + (d - 0x80) := by
  obtain ⟨-, -, hx, -, -⟩ := threeLeadFacts b hb hbm
  obtain ⟨hy, -, hcu⟩ := contByteFacts c hc hcm
  obtain ⟨hz, -, hdu⟩ := contByteFacts d hd hdm
  rw [hx, hy, hz]
  have hB : (c - 0x80) <<< 6 = (c - 0x80) * 64 := by
    simp [Nat.shiftLeft_eq]
  rw [hB, or_small _ _ 12 (by omega)]
  have hsum : (b - 0xE0) * 2 ^ 12 + (c - 0x80) * 64 = 2 ^ 6 * ((b - 0xE0) * 64 + (c - 0x80)) := by
    ring
  rw [hsum, ← Nat.mul_add_lt_is_or (by omega) ((b - 0xE0) * 64 + (c - 0x80))]
  ring

/-- Claim C1 amended: the round trip `encode_mutf8 (decode_mutf8 bs) = bs`
holds on the canonical subset: buffers whose following bytes match
`10xxxxxx` and whose multi-byte groups encode code points needing that many
bytes (no overlong forms). -/
theorem c1_roundtrip_canonical :
    ∀ bs : List Nat, MUTF8Canonical bs → (decode_mutf8 bs).bind encode_mutf8 = .ok bs := by
  intro bs h
  induction h with
  | nil => rfl
  | ascii b rest hb _ ih =>
    rw [decode_mutf8_ascii b rest (asciiLeadAnd b hb)]
    cases hd : decode_mutf8 rest with
    | error e =>
      rw [hd] at ih
      exact absurd ih (by simp [Except.bind])
    | ok cps =>
      rw [hd] at ih
      have ih2 : encode_mutf8 cps = .ok rest := ih
      show encode_mutf8 (b :: cps) = .ok (b :: rest)
      unfold encode_mutf8
      rw [show encodeChar b = .ok [b] by unfold encodeChar; rw [if_pos (by omega)], ih2]
      rfl
  | two b c rest hb hbm hc hcm hcp _ ih =>
    obtain ⟨h80, -, hcb, hub⟩ := twoLeadFacts b hb hbm
    obtain ⟨-, hcl, hcu⟩ := contByteFacts c hc hcm
    rw [decode_mutf8_two b c rest h80 hbm]
    cases hd : decode_mutf8 rest with
    | error e =>
      rw [hd] at ih
      exact absurd ih (by simp [Except.bind])
    | ok cps =>
      rw [hd] at ih
      have ih2 : encode_mutf8 cps = .ok rest := ih
      have hval := twoByteVal b c hb hbm hc hcm
      rw [hval] at hcp
      show encode_mutf8 ((((b &&& 0x1F) <<< 6) ||| (c &&& 0x3F)) :: cps) = .ok (b :: c :: rest)
      rw [hval]
      unfold encode_mutf8
      rw [encodeChar_two (b - 0xC0) (c - 0x80) (by omega) (by omega) hcp, ih2]
      have e1 : 0xC0 + (b - 0xC0) = b := by omega
      have e2 : 0x80 + (c - 0x80) = c := by omega
      rw [e1, e2]
      rfl
  | three b c d rest hb hbm hc hcm hd hdm hcp _ ih =>
    obtain ⟨h80, hE0, -, hcb, hub⟩ := threeLeadFacts b hb hbm
    obtain ⟨-, hcl, hcu⟩ := contByteFacts c hc hcm
    obtain ⟨-, hdl, hdu⟩ := contByteFacts d hd hdm
    rw [decode_mutf8_three b c d rest h80 hE0 hbm]
    cases hdec : decode_mutf8 rest with
    | error e =>
      rw [hdec] at ih
      exact absurd ih (by simp [Except.bind])
    | ok cps =>
      rw [hdec] at ih
      have ih2 : encode_mutf8 cps = .ok rest := ih
      have hval := threeByteVal b c d hb hbm hc hcm hd hdm
      rw [hval] at hcp
      show encode_mutf8
          ((((b &&& 0x0F) <<< 12) ||| ((c &&& 0x3F) <<< 6) ||| (d &&& 0x3F)) :: cps) =
        .ok (b :: c :: d :: rest)
      rw [hval]
      unfold encode_mutf8
      rw [encodeChar_three (b - 0xE0) (c - 0x80) (d - 0x80) (by omega) (by omega) (by omega) hcp,
        ih2]
      have e1 : 0xE0 + (b - 0xE0) = b := by omega
      have e2 : 0x80 + (c - 0x80) = c := by omega
      have e3 : 0x80 + (d - 0x80) = d := by omega
      rw [e1, e2, e3]
      rfl

/-- Witness for the amended C1 on the concrete canonical buffer
`41 C2 81 E0 A0 80` (an ASCII byte, a two-byte group for `U+0081`, a
three-byte group for `U+0800`). -/
theorem c1_roundtrip_canonical_witness :
    MUTF8Canonical [0x41, 0xC2, 0x81, 0xE0, 0xA0, 0x80] ∧
    (decode_mutf8 [0x41, 0xC2, 0x81, 0xE0, 0xA0, 0x80]).bind encode_mutf8 =
      .ok [0x41, 0xC2, 0x81, 0xE0, 0xA0, 0x80] :=
  have h : MUTF8Canonical [0x41, 0xC2, 0x81, 0xE0, 0xA0, 0x80] :=
    MUTF8Canonical.ascii 0x41 _ (by decide)
      (MUTF8Canonical.two 0xC2 0x81 _ (by decide) (by decide) (by decide) (by decide) (by decide)
        (MUTF8Canonical.three 0xE0 0xA0 0x80 [] (by decide) (by decide) (by decide) (by decide)
          (by decide) (by decide) (by decide) MUTF8Canonical.nil))
  ⟨h, c1_roundtrip_canonical _ h⟩

/-! ## Claims C8/C9 (lazy string load) -/

/-- Shape of every successful `load`: the ULEB128 at `string_data_off`
decodes to `(u, n)`, the reads stay in bounds, the returned item is built
from the slices the source takes, and the returned stream is the input
stream with its position restored. -/
theorem load_ok_characterization (ls : LazyDalvikString) (st : DeserializingStream)
    (item : DalvikStringItem) (st2 : DeserializingStream)
    (h : ls.load st = .ok (item, st2)) :
    ∃ u n,
      ulebDecode (st.data.drop ls.string_id.string_data_off) 0 0 = .ok (u, n) ∧
      ls.string_id.string_data_off + n + u ≤ st.data.length ∧
      ls.string_id.string_data_off + (sizeof_uleb128 u + u) ≤ st.data.length ∧
      item = ⟨⟨ls.string_id.string_data_off,
               sizeof_uleb128 u +
                 ((st.data.drop (ls.string_id.string_data_off + n)).take u).length,
               (st.data.drop ls.string_id.string_data_off).take (sizeof_uleb128 u + u),
               u,
               (st.data.drop (ls.string_id.string_data_off + n)).take u⟩, ls.string_id⟩ ∧
      st2 = st := by
  obtain ⟨sd, sp, sbo⟩ := st
  unfold LazyDalvikString.load at h
  simp only [DeserializingStream.tell, DeserializingStream.seek,
    DeserializingStream.read_uleb128, DeserializingStream.read, DeserializingStream.seekpeek,
    Bind.bind, Except.bind] at h
  cases hu : ulebDecode (List.drop ls.string_id.string_data_off sd) 0 0 with
  | error e =>
    rw [hu] at h
    exact absurd h (by simp)
  | ok un =>
    obtain ⟨u, n⟩ := un
    rw [hu] at h
    simp only at h
    refine ⟨u, n, rfl, ?_⟩
    by_cases hb1 : ls.string_id.string_data_off + n + u ≤ sd.length
    · rw [if_pos hb1] at h
      simp only at h
      by_cases hb2 : ls.string_id.string_data_off + (sizeof_uleb128 u + u) ≤ sd.length
      · rw [if_pos hb2] at h
        simp only at h
        cases h
        exact ⟨hb1, hb2, rfl, rfl⟩
      · rw [if_neg hb2] at h
        exact absurd h (by simp)
    · rw [if_neg hb1] at h
      exact absurd h (by simp)

/-- Claim C9: whenever `load` returns, the stream it hands back is the one
it was given - same buffer, same byte order, and the position restored to
its value before the call. -/
theorem c9_load_preserves_stream :
    ∀ (ls : LazyDalvikString) (st : DeserializingStream)
      (item : DalvikStringItem) (st2 : DeserializingStream),
      ls.load st = .ok (item, st2) → st2 = st := by
  intro ls st item st2 h
  obtain ⟨-, -, -, -, -, -, hst⟩ := load_ok_characterization ls st item st2 h
  exact hst

/-- Witness for C9: a concrete load over the buffer `09 09 02 41 42` with
the cursor at 1 returns the stream unchanged. -/
theorem c9_load_preserves_stream_witness :
    LazyDalvikString.load ⟨⟨0, 4, [2, 0, 0, 0], 2, 0⟩⟩
        ⟨[9, 9, 2, 65, 66], 1, ByteOrder.littleEndian⟩ =
      .ok (⟨⟨2, 3, [2, 65, 66], 2, [65, 66]⟩, ⟨0, 4, [2, 0, 0, 0], 2, 0⟩⟩,
           ⟨[9, 9, 2, 65, 66], 1, ByteOrder.littleEndian⟩) ∧
    (⟨[9, 9, 2, 65, 66], 1, ByteOrder.littleEndian⟩ : DeserializingStream) =
      ⟨[9, 9, 2, 65, 66], 1, ByteOrder.littleEndian⟩ := by
  have hload : LazyDalvikString.load ⟨⟨0, 4, [2, 0, 0, 0], 2, 0⟩⟩
      ⟨[9, 9, 2, 65, 66], 1, ByteOrder.littleEndian⟩ =
      .ok (⟨⟨2, 3, [2, 65, 66], 2, [65, 66]⟩, ⟨0, 4, [2, 0, 0, 0], 2, 0⟩⟩,
           ⟨[9, 9, 2, 65, 66], 1, ByteOrder.littleEndian⟩) := rfl
  exact ⟨hload,
    c9_load_preserves_stream ⟨⟨0, 4, [2, 0, 0, 0], 2, 0⟩⟩
      ⟨[9, 9, 2, 65, 66], 1, ByteOrder.littleEndian⟩
      ⟨⟨2, 3, [2, 65, 66], 2, [65, 66]⟩, ⟨0, 4, [2, 0, 0, 0], 2, 0⟩⟩
      ⟨[9, 9, 2, 65, 66], 1, ByteOrder.littleEndian⟩ hload⟩

/-- Claim C8: a successful `load` returns an item whose raw offset is
`string_data_off`, whose `utf16_size` is the ULEB128 decoded there, whose
string data is exactly the `utf16_size` bytes after that ULEB128, and whose
recorded size is `sizeof_uleb128 utf16_size + utf16_size`. -/
theorem c8_load_spec :
    ∀ (ls : LazyDalvikString) (st : DeserializingStream)
      (item : DalvikStringItem) (st2 : DeserializingStream),
      ls.load st = .ok (item, st2) →
      item.raw_item.offset = ls.string_id.string_data_off ∧
      item.raw_item.size = sizeof_uleb128 item.raw_item.utf16_size + item.raw_item.utf16_size ∧
      item.raw_item.string_data.length = item.raw_item.utf16_size ∧
      ∃ n, ulebDecode (st.data.drop ls.string_id.string_data_off) 0 0 =
             .ok (item.raw_item.utf16_size, n) ∧
           item.raw_item.string_data =
             (st.data.drop (ls.string_id.string_data_off + n)).take
               item.raw_item.utf16_size := by
  intro ls st item st2 h
  obtain ⟨u, n, hu, hb1, hb2, hitem, -⟩ := load_ok_characterization ls st item st2 h
  subst hitem
  have hlen : ((st.data.drop (ls.string_id.string_data_off + n)).take u).length = u := by
    simp only [List.length_take, List.length_drop]
    omega
  refine ⟨rfl, ?_, hlen, n, hu, rfl⟩
  show sizeof_uleb128 u +
      ((st.data.drop (ls.string_id.string_data_off + n)).take u).length =
    sizeof_uleb128 u + u
  rw [hlen]

/-- Witness for C8 on the same concrete load: the recorded size is
`sizeof_uleb128 2 + 2 = 3` and the string data is the two bytes after the
one-byte ULEB128. -/
theorem c8_load_spec_witness :
    (3 : Nat) = sizeof_uleb128 2 + 2 ∧
    ∃ n, ulebDecode (([9, 9, 2, 65, 66] : List Nat).drop 2) 0 0 = .ok (2, n) ∧
      ([65, 66] : List Nat) = (([9, 9, 2, 65, 66] : List Nat).drop (2 + n)).take 2 := by
  have hload : LazyDalvikString.load ⟨⟨0, 4, [2, 0, 0, 0], 2, 0⟩⟩
      ⟨[9, 9, 2, 65, 66], 1, ByteOrder.littleEndian⟩ =
      .ok (⟨⟨2, 3, [2, 65, 66], 2, [65, 66]⟩, ⟨0, 4, [2, 0, 0, 0], 2, 0⟩⟩,
           ⟨[9, 9, 2, 65, 66], 1, ByteOrder.littleEndian⟩) := rfl
  have hc := c8_load_spec ⟨⟨0, 4, [2, 0, 0, 0], 2, 0⟩⟩
    ⟨[9, 9, 2, 65, 66], 1, ByteOrder.littleEndian⟩
    ⟨⟨2, 3, [2, 65, 66], 2, [65, 66]⟩, ⟨0, 4, [2, 0, 0, 0], 2, 0⟩⟩
    ⟨[9, 9, 2, 65, 66], 1, ByteOrder.littleEndian⟩ hload
  exact ⟨hc.2.1, hc.2.2.2⟩

/-! ## Claim C7 (checksum validation) -/

theorem readN_ok (data : List Nat) (pos n : Nat) (bo : ByteOrder)
    (h : pos + n ≤ data.length) :
    DeserializingStream.read ⟨data, pos, bo⟩ n =
      .ok ((data.drop pos).take n, ⟨data, pos + n, bo⟩) := by
  simp [DeserializingStream.read, h]

theorem readU32_ok (data : List Nat) (pos : Nat) (bo : ByteOrder)
    (h : pos + 4 ≤ data.length) :
    DeserializingStream.read_uint32 ⟨data, pos, bo⟩ =
      .ok (readU32At bo data pos, ⟨data, pos + 4, bo⟩) := by
  unfold DeserializingStream.read_uint32
  rw [readN_ok data pos 4 bo h]
  rfl

theorem pyIntOfDigits_error_shape (l : List Nat) (e : PyErr)
    (h : pyIntOfDigits l = .error e) : e = .valueError "invalid literal for int" := by
  unfold pyIntOfDigits at h
  split at h
  · cases h
  · cases h
    rfl

theorem from_raw_item_error_code (raw : DalvikHeader) (e : PyErr)
    (h : DalvikHeaderItem.from_raw_item raw = .error e) :
    PyErr.code? e ≠ some InvalidDalvikHeader.INVALID_CHECKSUM := by
  unfold DalvikHeaderItem.from_raw_item at h
  cases hv : pyIntOfDigits ((raw.magic.drop 4).take 3) with
  | error e2 =>
    rw [hv] at h
    simp only [Bind.bind, Except.bind] at h
    cases h
    rw [pyIntOfDigits_error_shape _ _ hv]
    simp [PyErr.code?]
  | ok v =>
    rw [hv] at h
    simp only [Bind.bind, Except.bind] at h
    split at h
    · cases h
    · split at h
      · cases h
      · cases h
        simp [PyErr.code?, InvalidDalvikHeader.INVALID_CHECKSUM,
          InvalidDalvikHeader.INVALID_ENDIAN_TAG]

theorem from_raw_item_ok_checksum (raw : DalvikHeader) (item : DalvikHeaderItem)
    (h : DalvikHeaderItem.from_raw_item raw = .ok item) : item.checksum = raw.checksum := by
  unfold DalvikHeaderItem.from_raw_item at h
  cases hv : pyIntOfDigits ((raw.magic.drop 4).take 3) with
  | error e2 =>
    rw [hv] at h
    simp only [Bind.bind, Except.bind] at h
    cases h
  | ok v =>
    rw [hv] at h
    simp only [Bind.bind, Except.bind] at h
    split at h
    · cases h
      rfl
    · split at h
      · cases h
        rfl
      · cases h

/-- Normal form of `parse_header` over a buffer of at least `0x70` bytes
whose magic checks pass: the remaining validity checks applied to the u32
fields at their header offsets, ending in `from_raw_item`. -/
theorem parse_header_normal_form (data : List Nat) (bo : ByteOrder)
    (hlen : 0x70 ≤ data.length)
    (hmagic : data.take 4 = [0x64, 0x65, 0x78, 0x0A])
    (hnul : data.get? 7 = some 0) :
    parse_header ⟨data, 0, bo⟩ =
      if readU32At bo data 8 ≠ adler32 (data.drop 12) then
        .error (.invalidDalvikHeader "Invalid checksum" InvalidDalvikHeader.INVALID_CHECKSUM)
      else if readU32At bo data 36 ≠ 0x70 then
        .error (.invalidDalvikHeader "Invalid header size"
          InvalidDalvikHeader.INVALID_HEADER_SIZE)
      else if 0xFFFF ≤ readU32At bo data 64 then
        .error (.invalidDalvikHeader "Invalid type ids size"
          InvalidDalvikHeader.INVALID_TYPES_SIZE)
      else if 0xFFFF ≤ readU32At bo data 72 then
        .error (.invalidDalvikHeader "Invalid proto ids size"
          InvalidDalvikHeader.INVALID_PROTOS_SIZE)
      else if readU32At bo data 104 % 4 ≠ 0 then
        .error (.invalidDalvikHeader "Invalid data size" InvalidDalvikHeader.INVALID_DATA_SIZE)
      else
        DalvikHeaderItem.from_raw_item
          ⟨0, readU32At bo data 36, data.take 0x70, (data.drop 0).take 8, readU32At bo data 8,
           (data.drop 12).take 20, readU32At bo data 32, readU32At bo data 36,
           readU32At bo data 40, readU32At bo data 44, readU32At bo data 48,
           readU32At bo data 52, readU32At bo data 56, readU32At bo data 60,
           readU32At bo data 64, readU32At bo data 68, readU32At bo data 72,
           readU32At bo data 76, readU32At bo data 80, readU32At bo data 84,
           readU32At bo data 88, readU32At bo data 92, readU32At bo data 96,
           readU32At bo data 100, readU32At bo data 104, readU32At bo data 108⟩ := by
  have hm : ((data.drop 0).take 8).take 4 = [0x64, 0x65, 0x78, 0x0A] := by
    rw [List.drop_zero, List.take_take]
    exact hmagic
  have hg : pyGet ((data.drop 0).take 8) 7 = .ok 0 := by
    unfold pyGet
    rw [List.drop_zero, List.get?_take (by norm_num : (7 : Nat) < 8), hnul]
  unfold parse_header
  simp only [readN_ok data 0 8 bo (by omega), readU32_ok data 8 bo (by omega),
    readN_ok data 12 20 bo (by omega),
    readU32_ok data 32 bo (by omega), readU32_ok data 36 bo (by omega),
    readU32_ok data 40 bo (by omega), readU32_ok data 44 bo (by omega),
    readU32_ok data 48 bo (by omega), readU32_ok data 52 bo (by omega),
    readU32_ok data 56 bo (by omega), readU32_ok data 60 bo (by omega),
    readU32_ok data 64 bo (by omega), readU32_ok data 68 bo (by omega),
    readU32_ok data 72 bo (by omega), readU32_ok data 76 bo (by omega),
    readU32_ok data 80 bo (by omega), readU32_ok data 84 bo (by omega),
    readU32_ok data 88 bo (by omega), readU32_ok data 92 bo (by omega),
    readU32_ok data 96 bo (by omega), readU32_ok data 100 bo (by omega),
    readU32_ok data 104 bo (by omega), readU32_ok data 108 bo (by omega),
    Bind.bind, Except.bind, hm, hg, throw, throwThe, MonadExceptOf.throw, pure, Except.pure,
    ne_eq, not_true_eq_false, if_false]

/-- Claim C7: given the magic checks pass (and the buffer holds a full
header), the header parser fails with the `INVALID_CHECKSUM` code exactly
when the stored u32 at offset 8 differs from `adler32` of the bytes from
offset 12 on; consequently every accepted file satisfies
`adler32(file[12..]) = header.checksum`. -/
theorem c7_checksum_validation :
    ∀ (data : List Nat) (bo : ByteOrder),
      0x70 ≤ data.length →
      data.take 4 = [0x64, 0x65, 0x78, 0x0A] →
      data.get? 7 = some 0 →
      ((∃ e, parse_header ⟨data, 0, bo⟩ = .error e ∧
          PyErr.code? e = some InvalidDalvikHeader.INVALID_CHECKSUM) ↔
        readU32At bo data 8 ≠ adler32 (data.drop 12)) ∧
      (∀ item, parse_header ⟨data, 0, bo⟩ = .ok item →
        item.checksum = adler32 (data.drop 12)) := by
  intro data bo hlen hmagic hnul
  rw [parse_header_normal_form data bo hlen hmagic hnul]
  by_cases hck : readU32At bo data 8 = adler32 (data.drop 12)
  · rw [if_neg (not_not_intro hck)]
    constructor
    · apply iff_of_false
      · rintro ⟨e, he, hc⟩
        split at he
        · cases he
          simp [PyErr.code?, InvalidDalvikHeader.INVALID_HEADER_SIZE,
            InvalidDalvikHeader.INVALID_CHECKSUM] at hc
        · split at he
          · cases he
            simp [PyErr.code?, InvalidDalvikHeader.INVALID_TYPES_SIZE,
              InvalidDalvikHeader.INVALID_CHECKSUM] at hc
          · split at he
            · cases he
              simp [PyErr.code?, InvalidDalvikHeader.INVALID_PROTOS_SIZE,
                InvalidDalvikHeader.INVALID_CHECKSUM] at hc
            · split at he
              · cases he
                simp [PyErr.code?, InvalidDalvikHeader.INVALID_DATA_SIZE,
                  InvalidDalvikHeader.INVALID_CHECKSUM] at hc
              · exact from_raw_item_error_code _ _ he hc
      · exact fun hne => hne hck
    · intro item hit
      split at hit
      · cases hit
      · split at hit
        · cases hit
        · split at hit
          · cases hit
          · split at hit
            · cases hit
            · rw [from_raw_item_ok_checksum _ _ hit]
              exact hck
  · rw [if_pos hck]
    constructor
    · exact iff_of_true ⟨_, rfl, rfl⟩ hck
    · intro item hit
      cases hit

/-- Witness for C7 on the concrete `testDex` file: the hypotheses hold, the
characterization applies, and the file's stored checksum equals the adler32
of its bytes from offset 12. -/
theorem c7_checksum_validation_witness :
    (((∃ e, parse_header ⟨testDex, 0, ByteOrder.littleEndian⟩ = .error e ∧
          PyErr.code? e = some InvalidDalvikHeader.INVALID_CHECKSUM) ↔
        readU32At ByteOrder.littleEndian testDex 8 ≠ adler32 (testDex.drop 12)) ∧
      (∀ item, parse_header ⟨testDex, 0, ByteOrder.littleEndian⟩ = .ok item →
        item.checksum = adler32 (testDex.drop 12))) ∧
    readU32At ByteOrder.littleEndian testDex 8 = adler32 (testDex.drop 12) :=
  ⟨c7_checksum_validation testDex ByteOrder.littleEndian (by decide) (by decide) (by decide),
   by decide⟩
